import Mathlib

/-!
Verification development for the typed SQL literal-formatting and
row-decoding layer of the `rust-helper-lib` repository (`src/sql.rs`).

Strings are modelled as `List Char`.  Timestamps are modelled at second
precision as seconds since the Unix epoch (`chrono` formats with
`%Y-%m-%d %H:%M:%S`, which discards sub-second components).  A
`DateTime<Local>` value is an instant together with its local UTC offset in
seconds; `chrono`'s `format` renders the wall clock of the value's own time
zone, i.e. the instant shifted by that offset.  SQLite column values
(`rusqlite::types::ValueRef`) are modelled by `ValueRef`; a REAL column
carries both the rational number a finite `f64` denotes and the text its
Rust `Display` implementation produces (the decoder only observes those two
aspects of a float).  `rusqlite` errors are modelled by the constructors the
code under verification can produce or inspect.
-/

abbrev Str := List Char

/-- The single-quote character `'` (ASCII 39). -/
def qc : Char := Char.ofNat 39

/-- `CompOp` from `src/sql.rs`: the comparison intent. -/
inductive CompOp
  | Eq
  | NEq
  | Gt
  | GtEq
  | Lt
  | LtEq
deriving DecidableEq

/-- The closed set of concrete types `format_value_inner` discriminates on
via `Any` downcasts: text (`&str` or `String`), `DateTime<Utc>`,
`DateTime<Local>`, and the fallback of any other `Display` type, which the
formatter only observes through its `Display` output `d`. -/
inductive SqlValue
  | text (s : Str)
  | tsUtc (t : Int)
  | tsLocal (t : Int) (off : Int)
  | other (d : Str)
deriving DecidableEq

/-- Decimal digits of a natural number (`Nat.toDigits 10`). -/
def natDigits (n : Nat) : Str := Nat.toDigits 10 n

/-- Zero-pad to two digits, as `%m`, `%d`, `%H`, `%M`, `%S` do. -/
def pad2 (n : Nat) : Str := if n < 10 then ('0') :: natDigits n else natDigits n

/-- Zero-pad to four digits, as `%Y` does for years `0..9999`. -/
def pad4 (n : Nat) : Str :=
  List.replicate (4 - (natDigits n).length) ('0') ++ natDigits n

/-- `chrono`'s `%Y`: at least four digits, explicit sign outside `0..9999`. -/
def fmtYear (y : Int) : Str :=
  if y < 0 then ('-') :: pad4 (-y).toNat
  else if 9999 < y then ('+') :: natDigits y.toNat
  else pad4 y.toNat

/-- Proleptic-Gregorian civil date `(year, month, day)` of a day number
(days since 1970-01-01).  Standard days-to-civil algorithm; `chrono`
formats dates on this same proleptic Gregorian calendar. -/
def civilFromDays (days : Int) : Int × Nat × Nat :=
  let z := days + 719468
  let era := Int.fdiv z 146097
  let doe := (z - era * 146097).toNat
  let yoe := (doe - doe / 1460 + doe / 36524 - doe / 146096) / 365
  let y := (yoe : Int) + era * 400
  let doy := doe - (365 * yoe + yoe / 4 - yoe / 100)
  let mp := (5 * doy + 2) / 153
  let d := doy - (153 * mp + 2) / 5 + 1
  let m := if mp < 10 then mp + 3 else mp - 9
  (if m ≤ 2 then y + 1 else y, m, d)

/-- `format("%Y-%m-%d %H:%M:%S")` of the naive date-time that is `t`
seconds since the Unix epoch. -/
def fmtYmdHms (t : Int) : Str :=
  let days := Int.fdiv t 86400
  let sod := (Int.emod t 86400).toNat
  let c := civilFromDays days
  fmtYear c.1 ++ ('-') :: pad2 c.2.1 ++ ('-') :: pad2 c.2.2 ++
    (' ') :: pad2 (sod / 3600) ++ (':') :: pad2 (sod % 3600 / 60) ++
    (':') :: pad2 (sod % 60)

/-- Rust's `s.replace("'", "''")`: double every single quote. -/
def replaceQuote : Str → Str
  | [] => []
  | c :: rest =>
    if c = qc then qc :: qc :: replaceQuote rest else c :: replaceQuote rest

/-- The `datetime(...)` wrapping used for `DateTime<Utc>` values. -/
def wrapUtcTs (s : Str) : Str := ("datetime(").data ++ qc :: s ++ qc :: (")").data

/-- The `datetime(..., 'utc')` wrapping used for `DateTime<Local>` values. -/
def wrapLocalTs (s : Str) : Str :=
  ("datetime(").data ++ qc :: s ++ qc :: (", ").data ++
    qc :: ("utc").data ++ qc :: (")").data

/-- `format_value_inner` from `src/sql.rs`: runtime type dispatch, first
match wins; `co` is the comparison-operator text placed in front.  Note the
`DateTime<Local>` arm formats the value's own (local) wall clock, i.e. the
instant shifted by the local offset. -/
def format_value_inner (v : SqlValue) (co : Str) : Str :=
  match v with
  | .text s => co ++ (qc :: replaceQuote s) ++ [qc]
  | .tsUtc t => co ++ wrapUtcTs (fmtYmdHms t)
  | .tsLocal t off => co ++ wrapLocalTs (fmtYmdHms (t + off))
  | .other d => co ++ d

/-- `dbfmt_t` from `src/sql.rs` (`format_bare`). -/
def dbfmt_t (v : SqlValue) : Str := format_value_inner v []

/-- `dbfmt` from `src/sql.rs` (`format_optional`). -/
def dbfmt (input : Option SqlValue) : Str :=
  match input with
  | none => ("NULL").data
  | some v => format_value_inner v []

/-- `dbfmt_comp` from `src/sql.rs` (`format_comparison`). -/
def dbfmt_comp (input : Option SqlValue) (co : CompOp) : Str :=
  match input with
  | none =>
    (match co with
      | .NEq => (" IS NOT ").data
      | _ => (" IS ").data) ++ ("NULL").data
  | some v =>
    format_value_inner v
      (match co with
        | .Eq => (" = ").data
        | .NEq => (" <> ").data
        | .Gt => (" > ").data
        | .GtEq => (" >= ").data
        | .Lt => (" < ").data
        | .LtEq => (" <= ").data)

/-- The comparison-symbol mapping stated by the specification. -/
def compSymbol (co : CompOp) : Str :=
  match co with
  | .Eq => (" = ").data
  | .NEq => (" <> ").data
  | .Gt => (" > ").data
  | .GtEq => (" >= ").data
  | .Lt => (" < ").data
  | .LtEq => (" <= ").data

/-- The unescape rule matching `replaceQuote`: collapse each doubled quote
`''` to a single `'`; a quote not followed by a second quote is rejected. -/
def collapseQuotes : Str → Option Str
  | [] => some []
  | c1 :: c2 :: rest =>
    if c1 = qc then
      (if c2 = qc then (collapseQuotes rest).map (fun r => qc :: r) else none)
    else (collapseQuotes (c2 :: rest)).map (fun r => c1 :: r)
  | [c] => if c = qc then none else some [c]

/-- Remove a final closing quote, rejecting strings not ending in one. -/
def dropFinalQuote : Str → Option Str
  | [] => none
  | [c] => if c = qc then some [] else none
  | c :: d :: t => (dropFinalQuote (d :: t)).map (fun r => c :: r)

/-- Strip the outer pair of single quotes of a text literal. -/
def stripWrap (s : Str) : Option Str :=
  match s with
  | c :: rest => if c = qc then dropFinalQuote rest else none
  | [] => none

/-- The full unescape rule for text literals: strip the outer quotes, then
collapse every doubled quote. -/
def unescapeSql (s : Str) : Option Str := (stripWrap s).bind collapseQuotes

/-- `true` iff every single quote in the string is part of an adjacent
doubled pair, i.e. the string has no unescaped single quote. -/
def wellEscaped : Str → Bool
  | [] => true
  | c1 :: c2 :: rest =>
    if c1 = qc then (if c2 = qc then wellEscaped rest else false)
    else wellEscaped (c2 :: rest)
  | [c] => if c = qc then false else true

/-- `rusqlite::types::Type`. -/
inductive SqlType
  | null
  | integer
  | real
  | text
  | blob
deriving DecidableEq

/-- A SQLite column value (`rusqlite::types::ValueRef`).  TEXT and BLOB
carry raw bytes.  REAL carries the rational a finite `f64` denotes together
with its Rust `Display` text `disp` (the decoder observes a float only
through these two aspects). -/
inductive ValueRef
  | null
  | integer (i : Int)
  | real (f : Rat) (disp : Str)
  | text (b : List Nat)
  | blob (b : List Nat)
deriving DecidableEq

/-- A result row: the ordered column values of one row. -/
abbrev DbRow := List ValueRef

/-- The `rusqlite::Error` constructors the code produces or inspects. -/
inductive SqlError
  | queryReturnedNoRows
  | invalidColumnType (idx : Nat) (name : Str) (ty : SqlType)
  | fromSqlConversionFailure (idx : Nat) (ty : SqlType) (cause : Str)
  | invalidColumnIndex (idx : Nat)
deriving DecidableEq

/-- `Row::get_ref(i)`: the `i`-th column value, or `InvalidColumnIndex`. -/
def rowGetRef (r : DbRow) (i : Nat) : Except SqlError ValueRef :=
  match r.get? i with
  | some v => Except.ok v
  | none => Except.error (SqlError.invalidColumnIndex i)

/-- `Connection::query_row`: apply the mapping closure to the first row; no
rows yields the `QueryReturnedNoRows` error. -/
def queryRowFirst {A : Type} (rows : List DbRow) (f : DbRow → Except SqlError A) :
    Except SqlError A :=
  match rows with
  | [] => Except.error SqlError.queryReturnedNoRows
  | r :: _ => f r

/-- `rusqlite::OptionalExtension::optional`: turn the `QueryReturnedNoRows`
error into `none`, keep every other outcome. -/
def optionalize {A : Type} (e : Except SqlError A) : Except SqlError (Option A) :=
  match e with
  | Except.ok a => Except.ok (some a)
  | Except.error SqlError.queryReturnedNoRows => Except.ok none
  | Except.error e2 => Except.error e2

/-- `i64::MIN`. -/
def i64Min : Int := -(2 ^ 63)

/-- `i64::MAX`. -/
def i64Max : Int := 2 ^ 63 - 1

/-- Truncation toward zero of a rational (the value of `f64::trunc`). -/
def ratTrunc (f : Rat) : Int := Int.tdiv f.num (f.den : Int)

/-- Rust's `f as i64` on a finite float: truncate toward zero, saturating
at the `i64` bounds. -/
def satTruncI64 (f : Rat) : Int := max i64Min (min i64Max (ratTrunc f))

/-- Accumulate decimal digits; any non-digit character rejects. -/
def digitsValAux : List Char → Nat → Option Nat
  | [], acc => some acc
  | c :: rest, acc =>
    if c.isDigit then digitsValAux rest (acc * 10 + (c.toNat - 48)) else none

/-- Value of a non-empty all-digit string. -/
def digitsVal (cs : List Char) : Option Nat :=
  match cs with
  | [] => none
  | _ :: _ => digitsValAux cs 0

/-- Rust's `str::parse::<i64>`: optional sign, one or more decimal digits,
nothing else, and the value must fit in `i64`. -/
def parseI64 (s : Str) : Option Int :=
  match s with
  | [] => none
  | c :: rest =>
    if c = ('-') then
      match digitsVal rest with
      | some n => if (n : Int) ≤ 2 ^ 63 then some (-(n : Int)) else none
      | none => none
    else if c = ('+') then
      match digitsVal rest with
      | some n => if (n : Int) ≤ i64Max then some ((n : Int)) else none
      | none => none
    else
      match digitsVal s with
      | some n => if (n : Int) ≤ i64Max then some ((n : Int)) else none
      | none => none

/-- `true` iff `b` is in the continuation-byte range `0x80..0xBF`. -/
def isCont (b : Nat) : Bool := if 0x80 ≤ b ∧ b ≤ 0xBF then true else false

/-- One step of UTF-8 decoding at lead byte `c` with remaining bytes
`rest`: `ok (scalar, extra)` when a valid sequence consuming `extra` bytes
after the lead starts here; `error k` when invalid, where `k ≥ 1` is the
length of the maximal subpart of a valid sequence (the bytes Rust's lossy
decoding replaces by one replacement character). -/
def utf8Chunk (c : Nat) (rest : List Nat) : Except Nat (Nat × Nat) :=
  if c < 0x80 then Except.ok (c, 0)
  else if c < 0xC2 then Except.error 1
  else if c ≤ 0xDF then
    match rest with
    | b1 :: _ =>
      if isCont b1 then Except.ok ((c - 0xC0) * 64 + (b1 - 0x80), 1)
      else Except.error 1
    | [] => Except.error 1
  else if c ≤ 0xEF then
    let lo1 := if c = 0xE0 then 0xA0 else 0x80
    let hi1 := if c = 0xED then 0x9F else 0xBF
    match rest with
    | b1 :: rest1 =>
      if lo1 ≤ b1 ∧ b1 ≤ hi1 then
        match rest1 with
        | b2 :: _ =>
          if isCont b2 then
            Except.ok ((c - 0xE0) * 4096 + (b1 - 0x80) * 64 + (b2 - 0x80), 2)
          else Except.error 2
        | [] => Except.error 2
      else Except.error 1
    | [] => Except.error 1
  else if c ≤ 0xF4 then
    let lo1 := if c = 0xF0 then 0x90 else 0x80
    let hi1 := if c = 0xF4 then 0x8F else 0xBF
    match rest with
    | b1 :: rest1 =>
      if lo1 ≤ b1 ∧ b1 ≤ hi1 then
        match rest1 with
        | b2 :: rest2 =>
          if isCont b2 then
            match rest2 with
            | b3 :: _ =>
              if isCont b3 then
                Except.ok ((c - 0xF0) * 262144 + (b1 - 0x80) * 4096 +
                  (b2 - 0x80) * 64 + (b3 - 0x80), 3)
              else Except.error 3
            | [] => Except.error 3
          else Except.error 2
        | [] => Except.error 2
      else Except.error 1
    | [] => Except.error 1
  else Except.error 1

/-- Fuelled worker for `utf8DecodeLossy`; each step consumes at least one
byte, so fuel `≥` the byte count makes the fuel bound inoperative. -/
def utf8LossyAux : Nat → List Nat → Str
  | 0, _ => []
  | _ + 1, [] => []
  | fuel + 1, c :: rest =>
    match utf8Chunk c rest with
    | Except.ok (u, extra) => Char.ofNat u :: utf8LossyAux fuel (rest.drop extra)
    | Except.error k => Char.ofNat 65533 :: utf8LossyAux fuel (rest.drop (k - 1))

/-- Rust's `String::from_utf8_lossy`: decode valid sequences, replace each
maximal subpart of an invalid sequence by U+FFFD. -/
def utf8DecodeLossy (b : List Nat) : Str := utf8LossyAux b.length b

/-- Fuelled worker for `validUtf8`. -/
def validUtf8Aux : Nat → List Nat → Bool
  | 0, _ => true
  | _ + 1, [] => true
  | fuel + 1, c :: rest =>
    match utf8Chunk c rest with
    | Except.ok (_, extra) => validUtf8Aux fuel (rest.drop extra)
    | Except.error _ => false

/-- Rust's `std::str::from_utf8(b).is_ok()`: whole-input UTF-8 validity. -/
def validUtf8 (b : List Nat) : Bool := validUtf8Aux b.length b

/-- The row-mapping closure of `query_to_i64` in `src/sql.rs`.  On valid
UTF-8 text the strict `from_utf8` succeeds and agrees with the lossy
decoding, so the parse runs on `utf8DecodeLossy b`. -/
def query_to_i64_row (r : DbRow) : Except SqlError Int :=
  match rowGetRef r 0 with
  | Except.error e => Except.error e
  | Except.ok v =>
    match v with
    | ValueRef.integer i => Except.ok i
    | ValueRef.real f _ => Except.ok (satTruncI64 f)
    | ValueRef.text b =>
      if validUtf8 b then
        match parseI64 (utf8DecodeLossy b) with
        | some n => Except.ok n
        | none =>
          Except.error (SqlError.fromSqlConversionFailure 0 SqlType.text
            (("int parse").data))
      else
        Except.error (SqlError.fromSqlConversionFailure 0 SqlType.text
          (("invalid utf-8").data))
    | ValueRef.null =>
      Except.error (SqlError.invalidColumnType 0 (("NULL not an integer").data)
        SqlType.null)
    | ValueRef.blob _ =>
      Except.error (SqlError.invalidColumnType 0 (("BLOB not an integer").data)
        SqlType.blob)

/-- `query_to_i64` from `src/sql.rs`, as a function of the rows the
statement produced: `query_row` then `.optional()`. -/
def query_to_i64 (rows : List DbRow) : Except SqlError (Option Int) :=
  optionalize (queryRowFirst rows query_to_i64_row)

/-- Hex digit `0..15` to its lowercase character. -/
def hexDigit (n : Nat) : Char := Char.ofNat (if n < 10 then 48 + n else 87 + n)

/-- `hex::encode`: two lowercase hex digits per byte. -/
def hexEncode : List Nat → Str
  | [] => []
  | b :: rest => hexDigit (b / 16 % 16) :: hexDigit (b % 16) :: hexEncode rest

/-- The row-mapping closure of `query_to_string` in `src/sql.rs`. -/
def query_to_string_row (r : DbRow) : Except SqlError (Option Str) :=
  match rowGetRef r 0 with
  | Except.error e => Except.error e
  | Except.ok v =>
    match v with
    | ValueRef.null => Except.ok none
    | ValueRef.integer i => Except.ok (some (Int.repr i).data)
    | ValueRef.real _ disp => Except.ok (some disp)
    | ValueRef.blob b => Except.ok (some (hexEncode b))
    | ValueRef.text b => Except.ok (some (utf8DecodeLossy b))

/-- `query_to_string` from `src/sql.rs`: `query_row` with no `.optional()`,
so zero rows surface the `QueryReturnedNoRows` error. -/
def query_to_string (rows : List DbRow) : Except SqlError (Option Str) :=
  queryRowFirst rows query_to_string_row

/-- `query_single_row_to_tuple` from `src/sql.rs`: take the first item of
the mapped-row iterator (or the simulated `QueryReturnedNoRows` when there
is none), then map the `QueryReturnedNoRows` error to `none`. -/
def query_single_row_to_tuple {T : Type} (rows : List DbRow)
    (conv : DbRow → Except SqlError T) : Except SqlError (Option T) :=
  let result : Except SqlError T :=
    match rows with
    | [] => Except.error SqlError.queryReturnedNoRows
    | r :: _ => conv r
  match result with
  | Except.ok t => Except.ok (some t)
  | Except.error SqlError.queryReturnedNoRows => Except.ok none
  | Except.error e => Except.error e

/-- `query_to_tuples` from `src/sql.rs`: map the conversion over every row
in order and collect, stopping at the first conversion error. -/
def query_to_tuples {T : Type} (rows : List DbRow)
    (conv : DbRow → Except SqlError T) : Except SqlError (List T) :=
  match rows with
  | [] => Except.ok []
  | r :: rest =>
    match conv r with
    | Except.error e => Except.error e
    | Except.ok t =>
      match query_to_tuples rest conv with
      | Except.error e => Except.error e
      | Except.ok ts => Except.ok (t :: ts)

/-- The comparison text is a pure front-extension: `format_value_inner v p`
is `p` followed by the bare literal text of `v`, in every dispatch arm. -/
theorem fvi_prefix (v : SqlValue) (p : Str) :
    format_value_inner v p = p ++ dbfmt_t v := by
  cases v <;> simp [format_value_inner, dbfmt_t, List.append_assoc]

theorem collapse_cons_of_ne (c : Char) (l : Str) (h : c ≠ qc) :
    collapseQuotes (c :: l) = (collapseQuotes l).map (fun r => c :: r) := by
  cases l with
  | nil => simp [collapseQuotes, h]
  | cons d t => simp [collapseQuotes, h]

theorem collapse_replaceQuote (s : Str) :
    collapseQuotes (replaceQuote s) = some s := by
  induction s with
  | nil => rfl
  | cons c rest ih =>
    by_cases hc : c = qc
    · subst hc
      simp [replaceQuote, collapseQuotes, ih]
    · simp [replaceQuote, hc, collapse_cons_of_ne c _ hc, ih]

theorem wellEscaped_cons_of_ne (c : Char) (l : Str) (h : c ≠ qc) :
    wellEscaped (c :: l) = wellEscaped l := by
  cases l with
  | nil => simp [wellEscaped, h]
  | cons d t => simp [wellEscaped, h]

theorem wellEscaped_replaceQuote (s : Str) :
    wellEscaped (replaceQuote s) = true := by
  induction s with
  | nil => rfl
  | cons c rest ih =>
    by_cases hc : c = qc
    · subst hc; simp [replaceQuote, wellEscaped, ih]
    · simp [replaceQuote, hc, wellEscaped_cons_of_ne c _ hc, ih]

theorem dropFinalQuote_append (l : Str) :
    dropFinalQuote (l ++ [qc]) = some l := by
  induction l with
  | nil => simp [dropFinalQuote]
  | cons c t ih =>
    cases t with
    | nil => simp [dropFinalQuote]
    | cons d t2 =>
      simp only [List.cons_append] at ih ⊢
      simp [dropFinalQuote, ih]

/-- C2: `format_bare` (`dbfmt_t`) on a text value yields a quoted literal
whose body is the input with every single quote doubled; the body has no
unescaped single quote; and the matching unescape rule (strip outer quotes,
collapse doubled quotes) recovers the input exactly. -/
theorem text_escape_roundtrip (s : Str) :
    dbfmt_t (SqlValue.text s) = (qc :: replaceQuote s) ++ [qc]
    ∧ wellEscaped (replaceQuote s) = true
    ∧ unescapeSql (dbfmt_t (SqlValue.text s)) = some s := by
  refine ⟨rfl, wellEscaped_replaceQuote s, ?_⟩
  show unescapeSql ((qc :: replaceQuote s) ++ [qc]) = some s
  simp [unescapeSql, stripWrap, dropFinalQuote_append, collapse_replaceQuote]

/-- C3: `format_comparison` (`dbfmt_comp`) on a present value prefixes
exactly the mapped symbol to the bare literal text; on an absent value,
`NEq` yields `" IS NOT NULL"` and every other intent yields `" IS NULL"`;
in particular `Some 3` with `Eq` yields `" = 3"`. -/
theorem dbfmt_comp_spec :
    (∀ v co, dbfmt_comp (some v) co = compSymbol co ++ dbfmt_t v)
    ∧ dbfmt_comp none CompOp.NEq = (" IS NOT NULL").data
    ∧ (∀ co, co ≠ CompOp.NEq → dbfmt_comp none co = (" IS NULL").data)
    ∧ dbfmt_comp (some (SqlValue.other (("3").data))) CompOp.Eq = (" = 3").data := by
  refine ⟨?_, by decide, ?_, by decide⟩
  · intro v co
    cases co <;> simp [dbfmt_comp, compSymbol, fvi_prefix]
  · intro co h
    cases co <;> first
      | exact absurd rfl h
      | decide

/-- C8: `format_optional` (`dbfmt`) of an absent value is exactly the
four-character string `NULL`, with no quoting and no comparison prefix. -/
theorem dbfmt_none_is_NULL : dbfmt none = ("NULL").data := rfl

/-- C9: `format_optional` (`dbfmt`) of a present value agrees exactly with
`format_bare` (`dbfmt_t`): both call the shared inner routine with an empty
comparison prefix. -/
theorem dbfmt_some_eq_dbfmt_t (v : SqlValue) : dbfmt (some v) = dbfmt_t v := rfl

/-- C1 counterexample: at the instant 2023-12-25T14:30:45Z (epoch
1703514645) in a zone one hour east of UTC, the UTC-zoned literal's inner
text is the UTC wall clock `2023-12-25 14:30:45` but the local-zoned
literal is `datetime('2023-12-25 15:30:45', 'utc')` — the local wall clock,
not the claimed identical UTC text. -/
theorem local_ts_text_not_utc_wall_clock :
    dbfmt_t (SqlValue.tsUtc 1703514645) = wrapUtcTs (("2023-12-25 14:30:45").data)
    ∧ dbfmt_t (SqlValue.tsLocal 1703514645 3600)
        = wrapLocalTs (("2023-12-25 15:30:45").data)
    ∧ dbfmt_t (SqlValue.tsLocal 1703514645 3600)
        ≠ wrapLocalTs (("2023-12-25 14:30:45").data) := by
  exact ⟨by decide, by decide, by decide⟩

/-- C1 amended: a UTC-zoned instant formats to `datetime('Y-m-d H:M:S')` of
its UTC wall clock, and a local-zoned value formats to
`datetime('Y-m-d H:M:S', 'utc')` of its local wall clock, i.e. the instant
shifted by the local UTC offset; the two inner texts therefore coincide for
the same instant exactly in the zero-offset case. -/
theorem local_ts_formats_local_wall_clock :
    (∀ t off, ∃ s, dbfmt_t (SqlValue.tsUtc (t + off)) = wrapUtcTs s
        ∧ dbfmt_t (SqlValue.tsLocal t off) = wrapLocalTs s)
    ∧ (∀ t, dbfmt_t (SqlValue.tsUtc t) = wrapUtcTs (fmtYmdHms t)
        ∧ dbfmt_t (SqlValue.tsLocal t 0) = wrapLocalTs (fmtYmdHms t)) := by
  constructor
  · intro t off
    exact ⟨fmtYmdHms (t + off), rfl, rfl⟩
  · intro t
    refine ⟨rfl, ?_⟩
    show wrapLocalTs (fmtYmdHms (t + 0)) = wrapLocalTs (fmtYmdHms t)
    rw [Int.add_zero]

/-- Saturating truncation agrees with plain truncation toward zero whenever
the truncated value lies within the `i64` range. -/
theorem satTrunc_of_bounds (f : Rat) (h1 : i64Min ≤ ratTrunc f)
    (h2 : ratTrunc f ≤ i64Max) : satTruncI64 f = ratTrunc f := by
  unfold satTruncI64
  rw [min_eq_right h2, max_eq_right h1]

/-- C4: `query_to_i64` maps the first column of the first row by kind —
INTEGER as-is, REAL truncated toward zero (stated for truncations in the
`i64` range, where Rust's saturating `as` cast is plain truncation), TEXT
parsed as integer text with parse failure an error, NULL an error, BLOB an
error — and returns `none`, not an error, on zero rows. -/
theorem query_to_i64_spec :
    query_to_i64 [] = Except.ok none
    ∧ (∀ i rest more, query_to_i64 ((ValueRef.integer i :: rest) :: more)
        = Except.ok (some i))
    ∧ (∀ f d rest more, i64Min ≤ ratTrunc f → ratTrunc f ≤ i64Max →
        query_to_i64 ((ValueRef.real f d :: rest) :: more)
          = Except.ok (some (ratTrunc f)))
    ∧ (∀ b n rest more, validUtf8 b = true → parseI64 (utf8DecodeLossy b) = some n →
        query_to_i64 ((ValueRef.text b :: rest) :: more) = Except.ok (some n))
    ∧ (∀ b rest more, validUtf8 b = true → parseI64 (utf8DecodeLossy b) = none →
        query_to_i64 ((ValueRef.text b :: rest) :: more)
          = Except.error (SqlError.fromSqlConversionFailure 0 SqlType.text
              (("int parse").data)))
    ∧ (∀ rest more, query_to_i64 ((ValueRef.null :: rest) :: more)
        = Except.error (SqlError.invalidColumnType 0
            (("NULL not an integer").data) SqlType.null))
    ∧ (∀ b rest more, query_to_i64 ((ValueRef.blob b :: rest) :: more)
        = Except.error (SqlError.invalidColumnType 0
            (("BLOB not an integer").data) SqlType.blob)) := by
  refine ⟨rfl, fun i rest more => rfl, ?_, ?_, ?_, fun rest more => rfl,
    fun b rest more => rfl⟩
  · intro f d rest more h1 h2
    show Except.ok (some (satTruncI64 f)) = Except.ok (some (ratTrunc f))
    rw [satTrunc_of_bounds f h1 h2]
  · intro b n rest more hv hp
    simp [query_to_i64, queryRowFirst, optionalize, query_to_i64_row, rowGetRef,
      List.get?, hv, hp]
  · intro b rest more hv hp
    simp [query_to_i64, queryRowFirst, optionalize, query_to_i64_row, rowGetRef,
      List.get?, hv, hp]

/-- C4 witness: concrete inputs for the hypothesized branches — a REAL 7/2
truncates to 3, TEXT bytes of `10` parse to 10, TEXT bytes of `x` fail. -/
theorem query_to_i64_spec_witness :
    query_to_i64 [[ValueRef.real (mkRat 7 2) (("3.5").data)]] = Except.ok (some 3)
    ∧ query_to_i64 [[ValueRef.text [49, 48]]] = Except.ok (some 10)
    ∧ query_to_i64 [[ValueRef.text [120]]]
        = Except.error (SqlError.fromSqlConversionFailure 0 SqlType.text
            (("int parse").data)) := by
  refine ⟨?_, ?_, ?_⟩
  · have hr : ratTrunc (mkRat 7 2) = 3 := by decide
    have h := query_to_i64_spec.2.2.1 (mkRat 7 2) (("3.5").data) [] []
      (by decide) (by decide)
    rw [hr] at h
    exact h
  · exact query_to_i64_spec.2.2.2.1 [49, 48] 10 [] [] (by decide) (by decide)
  · exact query_to_i64_spec.2.2.2.2.1 [120] [] [] (by decide) (by decide)

/-- C5: `query_to_string` maps the first column of the first row by kind —
NULL to `none` (not an error), INTEGER to its decimal text, REAL to its
`Display` text, BLOB to lowercase hex (witnessed on bytes FF 00 E7 67),
TEXT to its (lossily decoded) text — and zero rows surface the underlying
`QueryReturnedNoRows` error, not a silent `none`. -/
theorem query_to_string_spec :
    (∀ rest more, query_to_string ((ValueRef.null :: rest) :: more) = Except.ok none)
    ∧ (∀ i rest more, query_to_string ((ValueRef.integer i :: rest) :: more)
        = Except.ok (some (Int.repr i).data))
    ∧ (∀ f d rest more, query_to_string ((ValueRef.real f d :: rest) :: more)
        = Except.ok (some d))
    ∧ (∀ b rest more, query_to_string ((ValueRef.blob b :: rest) :: more)
        = Except.ok (some (hexEncode b)))
    ∧ hexEncode [255, 0, 231, 103] = ("ff00e767").data
    ∧ (∀ b rest more, query_to_string ((ValueRef.text b :: rest) :: more)
        = Except.ok (some (utf8DecodeLossy b)))
    ∧ query_to_string [] = Except.error SqlError.queryReturnedNoRows := by
  exact ⟨fun _ _ => rfl, fun _ _ _ => rfl, fun _ _ _ _ => rfl, fun _ _ _ => rfl,
    by decide, fun _ _ _ => rfl, rfl⟩

/-- C6 counterexample: a conversion contract that fails with the
`QueryReturnedNoRows` error on the (present) first row is conflated with
the zero-row case — `query_single_row_to_tuple` returns `Ok(None)` instead
of surfacing that conversion's error. -/
theorem query_single_row_noRows_error_conflated :
    (fun (_ : DbRow) => (Except.error SqlError.queryReturnedNoRows :
        Except SqlError Unit)) [ValueRef.null]
      = Except.error SqlError.queryReturnedNoRows
    ∧ query_single_row_to_tuple [[ValueRef.null]]
        (fun (_ : DbRow) => (Except.error SqlError.queryReturnedNoRows :
          Except SqlError Unit))
      = Except.ok none
    ∧ query_single_row_to_tuple [[ValueRef.null]]
        (fun (_ : DbRow) => (Except.error SqlError.queryReturnedNoRows :
          Except SqlError Unit))
      ≠ Except.error SqlError.queryReturnedNoRows := by
  refine ⟨rfl, rfl, ?_⟩
  intro h
  cases h

/-- C6 amended: `query_single_row_to_tuple` returns `none` on zero rows;
on a first row whose conversion succeeds it returns that value; on a first
row whose conversion fails it returns that conversion's error — except
when that error is itself `QueryReturnedNoRows`, which is conflated with
absence and reported as `none`; rows beyond the first are never
inspected. -/
theorem query_single_row_to_tuple_spec {T : Type} :
    (∀ conv : DbRow → Except SqlError T,
        query_single_row_to_tuple [] conv = Except.ok none)
    ∧ (∀ (conv : DbRow → Except SqlError T) r rest t, conv r = Except.ok t →
        query_single_row_to_tuple (r :: rest) conv = Except.ok (some t))
    ∧ (∀ (conv : DbRow → Except SqlError T) r rest e, conv r = Except.error e →
        e ≠ SqlError.queryReturnedNoRows →
        query_single_row_to_tuple (r :: rest) conv = Except.error e)
    ∧ (∀ (conv : DbRow → Except SqlError T) r rest,
        conv r = Except.error SqlError.queryReturnedNoRows →
        query_single_row_to_tuple (r :: rest) conv = Except.ok none)
    ∧ (∀ (conv : DbRow → Except SqlError T) r rest1 rest2,
        query_single_row_to_tuple (r :: rest1) conv
          = query_single_row_to_tuple (r :: rest2) conv) := by
  refine ⟨fun conv => rfl, ?_, ?_, ?_, fun conv r rest1 rest2 => rfl⟩
  · intro conv r rest t hc
    simp [query_single_row_to_tuple, hc]
  · intro conv r rest e hc hne
    cases e <;> first
      | exact absurd rfl hne
      | simp [query_single_row_to_tuple, hc]
  · intro conv r rest hc
    simp [query_single_row_to_tuple, hc]

/-- C6 witness: concrete applications of the amended row-decoding
contract — a succeeding conversion is returned, and a failing conversion's
(non-`QueryReturnedNoRows`) error is surfaced. -/
theorem query_single_row_to_tuple_spec_witness :
    query_single_row_to_tuple [[ValueRef.integer 1]]
        (fun (_ : DbRow) => (Except.ok 7 : Except SqlError Nat))
      = Except.ok (some 7)
    ∧ query_single_row_to_tuple [[ValueRef.integer 1]]
        (fun (_ : DbRow) => (Except.error (SqlError.invalidColumnIndex 0) :
          Except SqlError Nat))
      = Except.error (SqlError.invalidColumnIndex 0) := by
  constructor
  · exact query_single_row_to_tuple_spec.2.1 _ [ValueRef.integer 1] [] 7 rfl
  · exact query_single_row_to_tuple_spec.2.2.1 _ [ValueRef.integer 1] []
      (SqlError.invalidColumnIndex 0) rfl (by decide)

/-- C7: `query_to_tuples` decodes every row in result order (it equals the
monadic map over the row list, and on an all-succeeding conversion returns
exactly the ordered list of decoded values), and whenever some row's
conversion fails, the result is that first failing row's error — never a
partial list of the earlier successes. -/
theorem query_to_tuples_spec {T : Type} :
    (∀ (conv : DbRow → Except SqlError T) rows,
        query_to_tuples rows conv = rows.mapM conv)
    ∧ (∀ (conv : DbRow → Except SqlError T) pre r post e,
        (∀ x ∈ pre, ∃ t, conv x = Except.ok t) → conv r = Except.error e →
        query_to_tuples (pre ++ r :: post) conv = Except.error e)
    ∧ (∀ (f : DbRow → T) (conv : DbRow → Except SqlError T) rows,
        (∀ x, conv x = Except.ok (f x)) →
        query_to_tuples rows conv = Except.ok (rows.map f)) := by
  refine ⟨?_, ?_, ?_⟩
  · intro conv rows
    induction rows with
    | nil => rfl
    | cons r rest ih =>
      simp only [query_to_tuples, List.mapM_cons, ih]
      cases conv r with
      | error e => simp [Bind.bind, Except.bind]
      | ok t =>
        cases rest.mapM conv with
        | error e2 => simp [Bind.bind, Except.bind]
        | ok ts => simp [Bind.bind, Except.bind, Pure.pure, Except.pure]
  · intro conv pre r post e
    induction pre with
    | nil =>
      intro _ hr
      simp [query_to_tuples, hr]
    | cons x xs ih =>
      intro hpre hr
      obtain ⟨t, ht⟩ := hpre x (List.mem_cons_self x xs)
      have h2 := ih (fun y hy => hpre y (List.mem_cons_of_mem x hy)) hr
      simp [query_to_tuples, ht, h2]
  · intro f conv rows hok
    induction rows with
    | nil => rfl
    | cons r rest ih => simp [query_to_tuples, hok r, ih]

/-- C7 witness: a failure on the middle row of three aborts with that
row's error; an all-succeeding conversion returns every row's value in
order. -/
theorem query_to_tuples_spec_witness :
    query_to_tuples [[ValueRef.integer 1], [ValueRef.null], [ValueRef.integer 2]]
        query_to_i64_row
      = Except.error (SqlError.invalidColumnType 0
          (("NULL not an integer").data) SqlType.null)
    ∧ query_to_tuples [[ValueRef.null], []]
        (fun (r : DbRow) => (Except.ok r.length : Except SqlError Nat))
      = Except.ok [1, 0] := by
  constructor
  · exact query_to_tuples_spec.2.1 query_to_i64_row [[ValueRef.integer 1]]
      [ValueRef.null] [[ValueRef.integer 2]] _
      (by
        intro x hx
        rw [List.mem_singleton] at hx
        subst hx
        exact ⟨1, rfl⟩)
      rfl
  · have h := query_to_tuples_spec.2.2 (fun (r : DbRow) => r.length)
      (fun (r : DbRow) => (Except.ok r.length : Except SqlError Nat))
      [[ValueRef.null], []] (fun x => rfl)
    simpa using h

/-- Whole-input invalidity makes the lossy decoding emit at least one
replacement character U+FFFD. -/
theorem validUtf8Aux_false_repl_mem :
    ∀ fuel b, validUtf8Aux fuel b = false →
      Char.ofNat 65533 ∈ utf8LossyAux fuel b := by
  intro fuel
  induction fuel with
  | zero =>
    intro b h
    exact absurd h (by simp [validUtf8Aux])
  | succ n ih =>
    intro b h
    cases b with
    | nil => exact absurd h (by simp [validUtf8Aux])
    | cons c rest =>
      cases hc : utf8Chunk c rest with
      | ok pr =>
        obtain ⟨u, extra⟩ := pr
        have h2 : validUtf8Aux n (rest.drop extra) = false := by
          simpa [validUtf8Aux, hc] using h
        have h3 := ih _ h2
        simp only [utf8LossyAux, hc]
        exact List.mem_cons_of_mem _ h3
      | error k =>
        simp only [utf8LossyAux, hc]
        exact List.mem_cons_self _ _

/-- C10: on TEXT column bytes that are not valid UTF-8, `query_to_string`
decodes lossily — it succeeds with the lossy decoding, which contains the
replacement character U+FFFD — while `query_to_i64` surfaces a conversion
error for the same bytes. -/
theorem text_utf8_handling_divergence (b : List Nat) (rest : DbRow)
    (more : List DbRow) (h : validUtf8 b = false) :
    query_to_string ((ValueRef.text b :: rest) :: more)
        = Except.ok (some (utf8DecodeLossy b))
    ∧ Char.ofNat 65533 ∈ utf8DecodeLossy b
    ∧ query_to_i64 ((ValueRef.text b :: rest) :: more)
        = Except.error (SqlError.fromSqlConversionFailure 0 SqlType.text
            (("invalid utf-8").data)) := by
  refine ⟨rfl, validUtf8Aux_false_repl_mem b.length b h, ?_⟩
  simp [query_to_i64, queryRowFirst, optionalize, query_to_i64_row, rowGetRef,
    List.get?, h]

/-- C10 witness: the byte 0xFF is not valid UTF-8; `query_to_string`
returns its lossy decoding while `query_to_i64` errors. -/
theorem text_utf8_handling_divergence_witness :
    query_to_string [[ValueRef.text [255]]]
        = Except.ok (some (utf8DecodeLossy [255]))
    ∧ Char.ofNat 65533 ∈ utf8DecodeLossy [255]
    ∧ query_to_i64 [[ValueRef.text [255]]]
        = Except.error (SqlError.fromSqlConversionFailure 0 SqlType.text
            (("invalid utf-8").data)) :=
  text_utf8_handling_divergence [255] [] [] (by decide)

/-- C3 witness: the degradation branch at a concrete non-`NEq` intent —
`Gt` against an absent value yields `" IS NULL"`. -/
theorem dbfmt_comp_spec_witness :
    dbfmt_comp none CompOp.Gt = (" IS NULL").data :=
  dbfmt_comp_spec.2.2.1 CompOp.Gt (by decide)
